import Mathlib

/-!
Shallow embedding of the birdwatcher security-camera appliance
(app.py, streamer.py, procstreamer.py, av_rec.py) together with proofs
settling the specification claims about it.

Conventions: Python floats (timestamps, frame-difference means) are
modelled as rationals; filenames compared by Python string order are
modelled as lists of characters with code-point lexicographic order;
fallible Python code is modelled with Except/Option; the interleaving of
the motion-detection thread with spawned record_clip threads is modelled
as an explicit scheduler over a small-step transition system.
-/

/-! ## Settings file (streamer.py lines 21-23 and 51-60; app.py lines 34-49) -/

/-- Contents of settings.json as seen by json.load: the file can be absent
(FileNotFoundError), fail to parse (json.JSONDecodeError), parse to a JSON
object in which each of the two keys is present or not, or parse to a
non-object JSON value. -/
inductive SettingsFile
  | missing
  | malformed
  | jsonObj (sensitivity : Option Int) (duration : Option Int)
  | jsonNonObj
deriving DecidableEq

/-- Python exceptions that the embedded fragments can raise. -/
inductive PyExc
  | attributeError
  | audioOpenError
deriving DecidableEq

def DEFAULT_UI_SENSITIVITY : Int := 80

def DEFAULT_DURATION : Int := 10

/-- load_settings, defined identically in streamer.py (lines 51-60) and
app.py (lines 40-49): json.load the file and read the two keys with
dict.get defaults, catching only FileNotFoundError and json.JSONDecodeError.
On a parseable non-object value, settings.get raises AttributeError, which
is not caught. -/
def load_settings : SettingsFile → Except PyExc (Int × Int)
  | .missing => .ok (DEFAULT_UI_SENSITIVITY, DEFAULT_DURATION)
  | .malformed => .ok (DEFAULT_UI_SENSITIVITY, DEFAULT_DURATION)
  | .jsonObj s d => .ok (s.getD DEFAULT_UI_SENSITIVITY, d.getD DEFAULT_DURATION)
  | .jsonNonObj => .error .attributeError

/-- The write performed by the POST branch of app.settings_route
(app.py lines 87-93) once both form fields convert to int: json.dump of an
object holding exactly the two keys. -/
def settings_post (sensitivity duration : Int) : SettingsFile :=
  .jsonObj (some sensitivity) (some duration)

/-- streamer.get_raw_sensitivity (lines 62-64). -/
def get_raw_sensitivity (ui_sensitivity : Int) : Int :=
  105 - ui_sensitivity

/-! ## Motion detection (streamer.py lines 163-196) -/

/-- One decision step of motion_detection_loop (lines 179-193), taken on an
iteration where a previous frame exists and no recording is active: given
the current motion_detected_time, the frame-difference mean mse and the
current wall-clock time, return the new motion_detected_time and whether a
MotionStart fired on this poll (a record_clip thread spawned and the
timestamp set, lines 186-189). -/
def motion_poll (raw_sensitivity : Int) (clip_duration : ℚ)
    (motion_detected_time : Option ℚ) (mse now : ℚ) : Option ℚ × Bool :=
  if (raw_sensitivity : ℚ) < mse then
    match motion_detected_time with
    | none => (some now, true)
    | some t => (some t, false)
  else
    match motion_detected_time with
    | some t => if clip_duration < now - t then (none, false) else (some t, false)
    | none => (none, false)

/-- A sequence of detection polls: each element of the list is the pair
(mse, now) observed on that poll; returns the final motion_detected_time and
the number of MotionStart events emitted. -/
def motion_run (raw_sensitivity : Int) (clip_duration : ℚ) :
    Option ℚ → List (ℚ × ℚ) → Option ℚ × Nat
  | mdt, [] => (mdt, 0)
  | mdt, (mse, now) :: rest =>
    let this_poll := motion_poll raw_sensitivity clip_duration mdt mse now
    let tail := motion_run raw_sensitivity clip_duration this_poll.1 rest
    (tail.1, (if this_poll.2 then 1 else 0) + tail.2)

/-- np.mean(np.abs(cur - prev)) over the two luma planes (line 183), with
pixels as integers and the mean as a rational. -/
def frame_mse (cur prev : List Int) : ℚ :=
  (((cur.zip prev).map fun pr => |(pr.1 : ℚ) - (pr.2 : ℚ)|).sum) /
    ((cur.zip prev).length : ℚ)

/-! ## Interleaving model of the motion loop and record_clip threads
(streamer.py lines 83-88, 161, 163-196) -/

/-- Progress of one invocation of record_clip. atGuard: about to run the
check `if is_recording: return` (line 86); passedGuard: read is_recording
as False but has not yet executed `is_recording = True` (between lines 86
and 88, the two statements are not atomic); recording: set the flag and is
running the body (lines 88-160); finished: returned. -/
inductive RecPhase
  | atGuard
  | passedGuard
  | recording
  | finished
deriving DecidableEq

/-- Module-level state of streamer.py shared by the motion loop and the
record_clip threads, plus the phase of every record_clip invocation spawned
so far (in spawn order). -/
structure SysState where
  is_recording : Bool
  motion_detected_time : Option ℚ
  prev_set : Bool
  recs : List RecPhase
deriving DecidableEq

def initState : SysState :=
  { is_recording := false, motion_detected_time := none, prev_set := false, recs := [] }

/-- A scheduler choice: run one full iteration of motion_detection_loop
(with the mse and time observed on it, both environment inputs), or advance
record_clip thread number i by one step. -/
inductive SchedStep
  | poll (mse now : ℚ)
  | thread (i : Nat)
deriving DecidableEq

/-- One iteration of motion_detection_loop (lines 168-196): while a
recording is active the iteration only sleeps (lines 169-171); on the first
frame only the baseline is stored (line 179 guard, line 195); otherwise the
detection decision motion_poll runs and a trigger appends a fresh
record_clip thread (line 189). -/
def loop_iter (raw_sensitivity : Int) (clip_duration : ℚ) (mse now : ℚ)
    (s : SysState) : SysState :=
  if s.is_recording then s
  else if s.prev_set then
    let o := motion_poll raw_sensitivity clip_duration s.motion_detected_time mse now
    { s with motion_detected_time := o.1,
             recs := if o.2 then s.recs ++ [RecPhase.atGuard] else s.recs,
             prev_set := true }
  else { s with prev_set := true }

/-- One step of record_clip thread i (lines 83-161). At the guard, reading
is_recording = True returns immediately (the trigger is dropped, nothing is
queued); reading False merely passes the check. A separate step performs
`is_recording = True` (line 88). The body is collapsed into the final step,
which executes `is_recording = False` (line 161) and returns. -/
def thread_step (s : SysState) (i : Nat) : SysState :=
  match s.recs.get? i with
  | none => s
  | some RecPhase.atGuard =>
    if s.is_recording then { s with recs := s.recs.set i RecPhase.finished }
    else { s with recs := s.recs.set i RecPhase.passedGuard }
  | some RecPhase.passedGuard =>
    { s with is_recording := true, recs := s.recs.set i RecPhase.recording }
  | some RecPhase.recording =>
    { s with is_recording := false, recs := s.recs.set i RecPhase.finished }
  | some RecPhase.finished => s

def sys_step (raw_sensitivity : Int) (clip_duration : ℚ) (s : SysState) :
    SchedStep → SysState
  | .poll mse now => loop_iter raw_sensitivity clip_duration mse now s
  | .thread i => thread_step s i

def sys_run (raw_sensitivity : Int) (clip_duration : ℚ) :
    SysState → List SchedStep → SysState
  | s, [] => s
  | s, st :: rest => sys_run raw_sensitivity clip_duration
      (sys_step raw_sensitivity clip_duration s st) rest

/-- A record_clip invocation counts as active while it is past its guard
check and has not returned. -/
def isActive : RecPhase → Bool
  | RecPhase.passedGuard => true
  | RecPhase.recording => true
  | _ => false

def activeCount (s : SysState) : Nat :=
  s.recs.countP isActive

/-- A scheduler step is guard-atomic in state s when it does not run the
guard check of one record_clip invocation while another invocation sits
between its own check and its flag write. -/
def guard_check_safe (s : SysState) : SchedStep → Bool
  | .thread i =>
    match s.recs.get? i with
    | some RecPhase.atGuard => s.recs.all fun ph => decide (ph ≠ RecPhase.passedGuard)
    | _ => true
  | .poll _ _ => true

def sched_safe (raw_sensitivity : Int) (clip_duration : ℚ) :
    SysState → List SchedStep → Bool
  | _, [] => true
  | s, st :: rest =>
    guard_check_safe s st &&
      sched_safe raw_sensitivity clip_duration
        (sys_step raw_sensitivity clip_duration s st) rest

/-- Invariant carried by the mutual-exclusion proof: at most one invocation
is active, and an invocation in the recording phase implies the in-flight
flag is set. -/
def RecInv (s : SysState) : Prop :=
  activeCount s ≤ 1 ∧
    ∀ ph ∈ s.recs, ph = RecPhase.recording → s.is_recording = true

/-! ## Clip finalization after the recording window (streamer.py lines 137-161) -/

/-- Observable actions of the tail of record_clip, in program order. -/
inductive ClipEvent
  | stopEncoder
  | closeAudio
  | closeMuxStdin
  | waitMux (exit_code : Int)
  | logInfo (msg : String)
  | logError (msg : String)
  | removeFile (path : String)
  | runThumbnail (exit_code : Int)
  | clearInFlightGuard
deriving DecidableEq

/-- The finalization sequence of record_clip (lines 137-161): stop the
encoder, close the audio stream, close the muxing process stdin, wait for
the muxing process (its exit code is not inspected), log the clip as saved
unconditionally, run thumbnail extraction whose CalledProcessError alone is
caught and logged (lines 155-159), then clear is_recording (line 161). No
file is ever removed. -/
def clip_finalize (output_filename : String) (mux_exit thumb_exit : Int) :
    List ClipEvent :=
  [ ClipEvent.stopEncoder, ClipEvent.closeAudio, ClipEvent.closeMuxStdin,
    ClipEvent.waitMux mux_exit,
    ClipEvent.logInfo ("Clip saved: " ++ output_filename),
    ClipEvent.runThumbnail thumb_exit ] ++
  (if thumb_exit = 0 then [ClipEvent.logInfo "Thumbnail saved"]
   else [ClipEvent.logError "Thumbnail generation failed!"]) ++
  [ ClipEvent.clearInFlightGuard ]

/-- The claim on mux failure handling, stated from the specification words:
whenever the muxing tool exits non-zero, the failure is logged, the partial
clip output is discarded, and the guard is cleared. -/
def spec_mux_failure_handled (output_filename : String) (mux_exit thumb_exit : Int) : Prop :=
  mux_exit ≠ 0 →
    (∃ m, ClipEvent.logError m ∈ clip_finalize output_filename mux_exit thumb_exit) ∧
    (∃ f, ClipEvent.removeFile f ∈ clip_finalize output_filename mux_exit thumb_exit) ∧
    ClipEvent.clearInFlightGuard ∈ clip_finalize output_filename mux_exit thumb_exit

/-! ## Audio stream opening inside record_clip (streamer.py lines 39-49 and 110-130) -/

/-- Result of the pyaudio p.open call, an environment oracle: with
input_device_index = None pyaudio falls back to the system default input
device, so the call either yields a stream or raises. -/
inductive OpenResult
  | opened
  | raisedErr
deriving DecidableEq

/-- Outcome space of one record_clip invocation with respect to audio. -/
inductive ClipOutcome
  | completedWithAudio
  | completedVideoOnly
  | failedWithException (is_recording_left : Bool)
deriving DecidableEq

structure ClipAudioSetup where
  audio_stream_requested : Bool
  requested_index : Option Nat
  outcome : ClipOutcome
deriving DecidableEq

/-- record_clip audio handling (lines 110-130 together with 83-88):
is_recording is set, then p.open is called unconditionally with
input_device_index = audio_device_index; there is no None check (unlike the
live path, streamer_main lines 262-271). If the open raises, the exception
escapes record_clip before line 161, so is_recording is left True; if it
succeeds, the opened stream is piped into the muxing process, so the clip
includes audio. -/
def record_clip_audio_setup (audio_device_index : Option Nat)
    (open_result : OpenResult) : ClipAudioSetup :=
  { audio_stream_requested := true
    requested_index := audio_device_index
    outcome :=
      match open_result with
      | .raisedErr => ClipOutcome.failedWithException true
      | .opened => ClipOutcome.completedWithAudio }

/-! ## Segment muxer polling loop (procstreamer.py lines 64-105) -/

/-- Filenames as Python strings compared by code-point order. -/
abbrev FileName := List Char

/-- Python string comparison: lexicographic on code points. -/
def lexLe : FileName → FileName → Bool
  | [], _ => true
  | _ :: _, [] => false
  | a :: as2, b :: bs2 => if a = b then lexLe as2 bs2 else decide (a < b)

def insertSorted (x : FileName) : List FileName → List FileName
  | [] => [x]
  | y :: ys => if lexLe x y then x :: y :: ys else y :: insertSorted x ys

/-- Python sorted(): ascending insertion sort under lexLe. -/
def sortFiles (l : List FileName) : List FileName :=
  l.foldr insertSorted []

/-- Observable actions of one muxer iteration, in program order. -/
inductive MuxEvent
  | runMux (vfile afile : FileName) (exit_code : Int)
  | removeFile (f : FileName)
  | sleepSegmentTime
deriving DecidableEq

structure MuxIter where
  video_after : List FileName
  audio_after : List FileName
  events : List MuxEvent
deriving DecidableEq

/-- One iteration of the procstreamer polling loop (lines 65-105): sort the
two glob listings; if at least one video segment and strictly more than one
audio segment are present (line 74), run the muxing tool on the first file
of each sorted listing (lines 76-91) and then unconditionally os.remove
both (lines 97-98) - subprocess.run is invoked without check=True and its
exit code is never read; otherwise sleep a full segment duration. The
muxing tool exit code is an environment input. -/
def mux_iter (video_files audio_files : List FileName) (exit_code : Int) : MuxIter :=
  match sortFiles video_files, sortFiles audio_files with
  | vfile :: vrest, afile :: a2 :: arest =>
    { video_after := vrest
      audio_after := a2 :: arest
      events := [MuxEvent.runMux vfile afile exit_code,
                 MuxEvent.removeFile vfile, MuxEvent.removeFile afile] }
  | vs, auds =>
    { video_after := vs, audio_after := auds, events := [MuxEvent.sleepSegmentTime] }

/-- The claim on segment consumption, stated from the specification words:
on a ready iteration the consumed inputs are removed only when the muxing
tool exited successfully. -/
def spec_mux_removes_only_on_success (video_files audio_files : List FileName)
    (exit_code : Int) : Prop :=
  1 ≤ video_files.length → 1 < audio_files.length →
    ∀ f, MuxEvent.removeFile f ∈ (mux_iter video_files audio_files exit_code).events →
      exit_code = 0

/-! ## Rotating-segment controller handshake (av_rec.py lines 36-133) -/

/-- Synchronization events of the rotating-segment variant. -/
inductive AvEvent
  | readySet
  | readyWaited
  | startSet
  | startWaited
  | cameraStartRecording
  | cameraStopRecording
  | stopSet
deriving DecidableEq

/-- The synchronization events executed by av_rec.main (lines 78-133) in
program order, identical on the KeyboardInterrupt and the ffmpeg-death
paths. The audio process launch and the wait on ready_event (lines 98-99)
are commented out in the source, so ready_event is never set or waited on,
and start_event.set() (line 103) runs unconditionally; the finally block
stops the camera (line 121) and then sets stop_event (line 123). The next
statement, audio_process.join() (line 124), references a name that is never
bound because its assignment (line 90) is commented out, so every run of
main ends in a NameError inside the finally block. -/
def main_sync_trace : List AvEvent :=
  [AvEvent.startSet, AvEvent.cameraStartRecording,
   AvEvent.cameraStopRecording, AvEvent.stopSet]

/-- The synchronization events of audio_worker (lines 36-58) up to its read
loop: it signals ready, then waits on start. The function is defined but
never launched by main. -/
def audio_worker_sync_trace : List AvEvent :=
  [AvEvent.readySet, AvEvent.startWaited]

/-- events_ordered a b t holds when, scanning t left to right, no
occurrence of b appears before the first occurrence of a; it is vacuously
true when b never occurs. -/
def events_ordered (a b : AvEvent) : List AvEvent → Bool
  | [] => true
  | e :: rest => if e = b then false else if e = a then true else events_ordered a b rest

/-! ## Clip deletion endpoint (app.py lines 147-175) -/

/-- Python substring test `".." in filename`. -/
def containsDotDot : List Char → Bool
  | '.' :: '.' :: _ => true
  | _ :: rest => containsDotDot rest
  | [] => false

/-- Python test `filename.startswith("/")`. -/
def startsWithSlash : List Char → Bool
  | c :: _ => decide (c = '/')
  | [] => false

structure DeleteResult where
  http_status : Nat
  success : Bool
  moved_clip : Bool
  moved_thumbnail : Bool
deriving DecidableEq

/-- app.delete_file (lines 147-175): filenames containing ".." or starting
with "/" are rejected with HTTP 400 and success False before any file is
touched; otherwise the clip file and the thumbnail file are each moved to
the temp directory when they exist. -/
def delete_file (filename : List Char) (clip_exists thumbnail_exists : Bool) :
    DeleteResult :=
  if containsDotDot filename || startsWithSlash filename then
    { http_status := 400, success := false, moved_clip := false, moved_thumbnail := false }
  else
    { http_status := 200, success := true,
      moved_clip := clip_exists, moved_thumbnail := thumbnail_exists }

/-! ## Theorems -/

/-- C5: for every UI sensitivity value in the documented range 1 to 100,
get_raw_sensitivity computes 105 minus the value; in particular value 100
yields threshold 5 and value 1 yields threshold 104. -/
theorem raw_sensitivity_formula (ui : Int) (h1 : 1 ≤ ui) (h2 : ui ≤ 100) :
    get_raw_sensitivity ui = 105 - ui ∧
    get_raw_sensitivity 100 = 5 ∧ get_raw_sensitivity 1 = 104 :=
  ⟨rfl, by decide, by decide⟩

/-- Witness for raw_sensitivity_formula at the concrete value 65. -/
theorem raw_sensitivity_formula_witness : get_raw_sensitivity 65 = 105 - 65 :=
  (raw_sensitivity_formula 65 (by decide) (by decide)).1

/-- C9: writing any pair of integers through the settings endpoint and then
loading returns exactly that pair (in particular 65 and 15), and loading a
missing or malformed settings file returns the defaults 80 and 10. -/
theorem settings_roundtrip_and_defaults :
    (∀ s d : Int, load_settings (settings_post s d) = .ok (s, d)) ∧
    load_settings (settings_post 65 15) = .ok (65, 15) ∧
    load_settings .missing = .ok (80, 10) ∧
    load_settings .malformed = .ok (80, 10) :=
  ⟨fun _ _ => rfl, rfl, rfl, rfl⟩

/-- C10: a filename containing ".." or beginning with "/" makes the delete
endpoint answer HTTP 400 with success false and move no file, and a file is
moved only for filenames passing the check. -/
theorem delete_rejects_unsafe_filenames (filename : List Char) (c t : Bool)
    (h : containsDotDot filename = true ∨ startsWithSlash filename = true) :
    (delete_file filename c t).http_status = 400 ∧
    (delete_file filename c t).success = false ∧
    (delete_file filename c t).moved_clip = false ∧
    (delete_file filename c t).moved_thumbnail = false ∧
    (∀ fn2 c2 t2, (delete_file fn2 c2 t2).moved_clip = true ∨
        (delete_file fn2 c2 t2).moved_thumbnail = true →
      containsDotDot fn2 = false ∧ startsWithSlash fn2 = false) := by
  have hcond : (containsDotDot filename || startsWithSlash filename) = true := by
    rcases h with h | h <;> simp [h]
  refine ⟨by simp [delete_file, hcond], by simp [delete_file, hcond],
    by simp [delete_file, hcond], by simp [delete_file, hcond], ?_⟩
  intro fn2 c2 t2 hmoved
  by_cases hc : (containsDotDot fn2 || startsWithSlash fn2) = true
  · exfalso
    rcases hmoved with hm | hm <;> simp [delete_file, hc] at hm
  · constructor
    · revert hc
      cases containsDotDot fn2 <;> simp
    · revert hc
      cases startsWithSlash fn2 <;> simp

/-- Witness for delete_rejects_unsafe_filenames on the traversal filename
"../secret". -/
theorem delete_rejects_unsafe_filenames_witness :
    (delete_file "../secret".toList true true).http_status = 400 :=
  (delete_rejects_unsafe_filenames "../secret".toList true true
    (Or.inl (by decide))).1

/-- C1: the claimed handshake order of the rotating-segment controller does
not hold on the code: av_rec.main signals start without ready ever having
been signaled (the audio process launch and ready wait are commented out),
while the second half of the order holds - stop is only set after the
camera has stopped recording - and the worker itself would signal ready
before waiting on start. -/
theorem av_main_signals_start_without_ready :
    events_ordered AvEvent.readySet AvEvent.startSet main_sync_trace = false ∧
    AvEvent.readySet ∉ main_sync_trace ∧
    events_ordered AvEvent.cameraStopRecording AvEvent.stopSet main_sync_trace = true ∧
    events_ordered AvEvent.readySet AvEvent.startWaited audio_worker_sync_trace = true :=
  ⟨rfl, by decide, rfl, rfl⟩

/-- C7 counterexample: with the muxing tool exiting 1 and thumbnail
extraction succeeding, record_clip logs no failure and discards nothing, so
the claimed failure handling is false at this input. -/
theorem clip_mux_failure_not_handled :
    ¬ spec_mux_failure_handled "clips/2024-01-01_00-00-00.mp4" 1 0 := by
  intro h
  obtain ⟨⟨m, hm⟩, -, -⟩ := h (by decide)
  simp [clip_finalize] at hm

/-- C7 amended: a non-zero exit of the muxing tool is not detected by
record_clip: the clip is logged as saved regardless, no file is ever
removed, the only failure ever logged is the thumbnail one, and the
in-flight guard is cleared as the last action (the appliance is not
terminated). -/
theorem clip_mux_exit_ignored (out : String) (mux_exit thumb_exit : Int)
    (h : mux_exit ≠ 0) :
    ClipEvent.logInfo ("Clip saved: " ++ out) ∈ clip_finalize out mux_exit thumb_exit ∧
    (∀ f, ClipEvent.removeFile f ∉ clip_finalize out mux_exit thumb_exit) ∧
    (∀ m, ClipEvent.logError m ∈ clip_finalize out mux_exit thumb_exit →
      thumb_exit ≠ 0) ∧
    (clip_finalize out mux_exit thumb_exit).getLast? =
      some ClipEvent.clearInFlightGuard := by
  refine ⟨by simp [clip_finalize], ?_, ?_, ?_⟩
  · intro f
    by_cases ht : thumb_exit = 0 <;> simp [clip_finalize, ht]
  · intro m hm ht0
    rw [ht0] at hm
    simp [clip_finalize] at hm
  · by_cases ht : thumb_exit = 0 <;> simp [clip_finalize, ht]

/-- Witness for clip_mux_exit_ignored at mux exit 1 and thumbnail exit 1. -/
theorem clip_mux_exit_ignored_witness :
    ClipEvent.logInfo ("Clip saved: " ++ "clips/2024-01-01_00-00-00.mp4") ∈
      clip_finalize "clips/2024-01-01_00-00-00.mp4" 1 1 :=
  (clip_mux_exit_ignored "clips/2024-01-01_00-00-00.mp4" 1 1 (by decide)).1

/-- C8: record_clip never degrades to a video-only recording: it requests
an audio stream unconditionally (even with audio_device_index = None, which
selects the default device), and when the open raises, the invocation fails
with the exception escaping and is_recording left set. -/
theorem record_clip_never_video_only (audio_device_index : Option Nat)
    (open_result : OpenResult) (h : open_result = OpenResult.raisedErr) :
    (∀ r, (record_clip_audio_setup audio_device_index r).audio_stream_requested = true ∧
      (record_clip_audio_setup audio_device_index r).outcome ≠
        ClipOutcome.completedVideoOnly) ∧
    (record_clip_audio_setup audio_device_index open_result).outcome =
      ClipOutcome.failedWithException true := by
  subst h
  refine ⟨fun r => ⟨rfl, ?_⟩, rfl⟩
  cases r <;> simp [record_clip_audio_setup]

/-- Witness for record_clip_never_video_only with no device index and a
failing open. -/
theorem record_clip_never_video_only_witness :
    (record_clip_audio_setup none OpenResult.raisedErr).outcome =
      ClipOutcome.failedWithException true :=
  (record_clip_never_video_only none OpenResult.raisedErr rfl).2

/-- Helper: while motion is already tracked, polls whose mse stays above the
threshold emit no further MotionStart and keep the recorded timestamp. -/
theorem motion_run_tracked (raw_sensitivity : Int) (clip_duration : ℚ) (t : ℚ)
    (polls : List (ℚ × ℚ))
    (h : ∀ p ∈ polls, (raw_sensitivity : ℚ) < p.1) :
    motion_run raw_sensitivity clip_duration (some t) polls = (some t, 0) := by
  induction polls with
  | nil => rfl
  | cons p rest ih =>
    obtain ⟨mse, now⟩ := p
    have h1 : (raw_sensitivity : ℚ) < mse := h _ (List.mem_cons_self _ _)
    have ih2 := ih fun q hq => h q (List.mem_cons_of_mem _ hq)
    simp [motion_run, motion_poll, if_pos h1, ih2]

/-- C4: on a run of polls starting untracked whose frame-difference mean
exceeds the raw threshold on every poll, exactly one MotionStart is
emitted, on the first poll, and the motion timestamp is set once to that
poll's time. -/
theorem motion_start_emitted_once (raw_sensitivity : Int) (clip_duration : ℚ)
    (mse now : ℚ) (rest : List (ℚ × ℚ))
    (h1 : (raw_sensitivity : ℚ) < mse)
    (h2 : ∀ p ∈ rest, (raw_sensitivity : ℚ) < p.1) :
    motion_run raw_sensitivity clip_duration none ((mse, now) :: rest) =
      (some now, 1) := by
  have htail := motion_run_tracked raw_sensitivity clip_duration now rest h2
  simp [motion_run, motion_poll, if_pos h1, htail]

/-- Witness for motion_start_emitted_once: threshold 25 (UI sensitivity 80),
two consecutive polls with mse 40. -/
theorem motion_start_emitted_once_witness :
    motion_run 25 10 none [(40, 0), (40, 1)] = (some 0, 1) :=
  motion_start_emitted_once 25 10 40 0 [(40, 1)] (by decide) (by decide)

/-- Helper: the mean absolute difference of a frame against itself is zero. -/
theorem frame_mse_self (f : List Int) : frame_mse f f = 0 := by
  have hz : (((f.zip f).map fun pr => |(pr.1 : ℚ) - (pr.2 : ℚ)|).sum) = 0 := by
    induction f with
    | nil => rfl
    | cons a rest ih => simp [List.zip_cons_cons, ih]
  simp [frame_mse, hz]

/-- C6: for a pair of identical consecutive luma frames and any UI
sensitivity in 1..100, the detection poll emits no MotionStart (so no
recording is spawned), whatever the tracked state and the clock read. -/
theorem identical_frames_no_motion_start (f : List Int) (ui : Int)
    (clip_duration : ℚ) (mdt : Option ℚ) (now : ℚ)
    (h1 : 1 ≤ ui) (h2 : ui ≤ 100) :
    (motion_poll (get_raw_sensitivity ui) clip_duration mdt
      (frame_mse f f) now).2 = false := by
  have hm : frame_mse f f = 0 := frame_mse_self f
  have hui : (ui : ℚ) ≤ 100 := by exact_mod_cast h2
  have hraw : ¬ ((get_raw_sensitivity ui : Int) : ℚ) < frame_mse f f := by
    rw [hm]
    have : (0 : ℚ) < ((105 : ℚ) - ui) := by linarith
    simp only [get_raw_sensitivity]
    push_cast
    linarith
  simp only [motion_poll, if_neg hraw]
  cases mdt with
  | none => rfl
  | some t => by_cases hc : clip_duration < now - t <;> simp [hc]

/-- Witness for identical_frames_no_motion_start: a concrete two-pixel
frame, UI sensitivity 80, duration 10, untracked state, time 0. -/
theorem identical_frames_no_motion_start_witness :
    (motion_poll (get_raw_sensitivity 80) 10 none
      (frame_mse [10, 20] [10, 20]) 0).2 = false :=
  identical_frames_no_motion_start [10, 20] 80 10 none 0 (by decide) (by decide)

/-- Helper: lexLe is reflexive. -/
theorem lexLe_refl (a : FileName) : lexLe a a = true := by
  induction a with
  | nil => rfl
  | cons c cs ih => simp [lexLe, ih]

/-- Helper: lexLe is total. -/
theorem lexLe_total (a b : FileName) : lexLe a b = true ∨ lexLe b a = true := by
  induction a generalizing b with
  | nil => exact Or.inl rfl
  | cons x xs ih =>
    cases b with
    | nil => exact Or.inr rfl
    | cons y ys =>
      by_cases hxy : x = y
      · subst hxy
        rcases ih ys with h | h
        · exact Or.inl (by simp [lexLe, h])
        · exact Or.inr (by simp [lexLe, h])
      · rcases lt_or_gt_of_ne hxy with h | h
        · exact Or.inl (by simp [lexLe, hxy, h])
        · exact Or.inr (by simp [lexLe, Ne.symm hxy, h])

/-- Helper: lexLe is transitive. -/
theorem lexLe_trans {a b c : FileName} (h1 : lexLe a b = true)
    (h2 : lexLe b c = true) : lexLe a c = true := by
  induction a generalizing b c with
  | nil => rfl
  | cons x xs ih =>
    cases b with
    | nil => simp [lexLe] at h1
    | cons y ys =>
      cases c with
      | nil => simp [lexLe] at h2
      | cons z zs =>
        by_cases hxy : x = y
        · subst hxy
          simp only [lexLe, if_pos rfl] at h1
          by_cases hxz : x = z
          · subst hxz
            simp only [lexLe, if_pos rfl] at h2 ⊢
            exact ih h1 h2
          · simp only [lexLe, if_neg hxz] at h2 ⊢
            exact h2
        · simp only [lexLe, if_neg hxy, decide_eq_true_eq] at h1
          by_cases hyz : y = z
          · subst hyz
            simp only [lexLe, if_neg hxy, decide_eq_true_eq]
            exact h1
          · simp only [lexLe, if_neg hyz, decide_eq_true_eq] at h2
            have hlt : x < z := lt_trans h1 h2
            simp only [lexLe, if_neg (ne_of_lt hlt), decide_eq_true_eq]
            exact hlt

/-- Helper: membership through insertSorted. -/
theorem mem_insertSorted (x y : FileName) (l : List FileName) :
    y ∈ insertSorted x l ↔ y = x ∨ y ∈ l := by
  induction l with
  | nil => simp [insertSorted]
  | cons z zs ih =>
    by_cases h : lexLe x z = true
    · simp only [insertSorted, if_pos h, List.mem_cons]
    · simp only [insertSorted, if_neg h, List.mem_cons, ih]
      tauto

/-- Helper: membership through sortFiles. -/
theorem mem_sortFiles (y : FileName) (l : List FileName) :
    y ∈ sortFiles l ↔ y ∈ l := by
  induction l with
  | nil => simp [sortFiles]
  | cons z zs ih =>
    show y ∈ insertSorted z (sortFiles zs) ↔ _
    rw [mem_insertSorted]
    simp only [List.mem_cons, ih]

/-- Helper: insertSorted adds one element to the length. -/
theorem length_insertSorted (x : FileName) (l : List FileName) :
    (insertSorted x l).length = l.length + 1 := by
  induction l with
  | nil => rfl
  | cons z zs ih =>
    by_cases h : lexLe x z = true <;> simp [insertSorted, h, ih]

/-- Helper: sortFiles preserves length. -/
theorem length_sortFiles (l : List FileName) :
    (sortFiles l).length = l.length := by
  induction l with
  | nil => rfl
  | cons z zs ih =>
    show (insertSorted z (sortFiles zs)).length = _
    rw [length_insertSorted, ih]
    rfl

/-- Helper: insertSorted preserves pairwise lexLe ordering. -/
theorem pairwise_insertSorted (x : FileName) (l : List FileName)
    (h : l.Pairwise fun p q => lexLe p q = true) :
    (insertSorted x l).Pairwise fun p q => lexLe p q = true := by
  induction l with
  | nil => simp [insertSorted]
  | cons y ys ih =>
    rw [List.pairwise_cons] at h
    obtain ⟨hy, hys⟩ := h
    by_cases hxy : lexLe x y = true
    · have hred : insertSorted x (y :: ys) = x :: y :: ys := by
        simp [insertSorted, hxy]
      rw [hred, List.pairwise_cons]
      refine ⟨?_, List.pairwise_cons.mpr ⟨hy, hys⟩⟩
      intro z hz
      rcases List.mem_cons.mp hz with rfl | hz2
      · exact hxy
      · exact lexLe_trans hxy (hy z hz2)
    · have hred : insertSorted x (y :: ys) = y :: insertSorted x ys := by
        simp [insertSorted, hxy]
      rw [hred, List.pairwise_cons]
      refine ⟨?_, ih hys⟩
      intro z hz
      rcases (mem_insertSorted x z ys).mp hz with rfl | hz2
      · rcases lexLe_total z y with h2 | h2
        · exact absurd h2 hxy
        · exact h2
      · exact hy z hz2

/-- Helper: the output of sortFiles is pairwise ordered under lexLe. -/
theorem pairwise_sortFiles (l : List FileName) :
    (sortFiles l).Pairwise fun p q => lexLe p q = true := by
  induction l with
  | nil => simp [sortFiles]
  | cons z zs ih => exact pairwise_insertSorted z (sortFiles zs) ih

/-- Helper: the head of sortFiles is lexLe-below every listed file. -/
theorem sortFiles_head_min (l : List FileName) (m : FileName)
    (rest : List FileName) (h : sortFiles l = m :: rest) :
    ∀ y ∈ l, lexLe m y = true := by
  intro y hy
  have hmem : y ∈ sortFiles l := (mem_sortFiles y l).mpr hy
  rw [h] at hmem
  rcases List.mem_cons.mp hmem with rfl | hmem2
  · exact lexLe_refl y
  · have hp := pairwise_sortFiles l
    rw [h] at hp
    exact (List.pairwise_cons.mp hp).1 y hmem2

/-- C3 counterexample: one video segment and two audio segments with the
muxing tool exiting 1: both inputs are still removed, so removal is not
conditional on success as claimed. -/
theorem mux_removes_despite_failure :
    ¬ spec_mux_removes_only_on_success ["video_000.mp4".toList]
      ["audio_000.aac".toList, "audio_001.aac".toList] 1 := by
  intro h
  exact absurd (h (by decide) (by decide) "video_000.mp4".toList (by decide)) (by decide)

/-- C3 amended: on a ready iteration the muxer pairs the lexicographically
smallest video file with the lexicographically smallest audio file, runs the
muxing tool first and removes exactly the two consumed files afterwards -
but it does so for every exit code of the tool, failures included. -/
theorem mux_pairs_smallest_and_removes_after (video_files audio_files : List FileName)
    (exit_code : Int) (hv : 1 ≤ video_files.length) (ha : 1 < audio_files.length) :
    ∃ vfile afile vrest a2 arest,
      sortFiles video_files = vfile :: vrest ∧
      sortFiles audio_files = afile :: a2 :: arest ∧
      (∀ y ∈ video_files, lexLe vfile y = true) ∧
      (∀ y ∈ audio_files, lexLe afile y = true) ∧
      mux_iter video_files audio_files exit_code =
        { video_after := vrest, audio_after := a2 :: arest,
          events := [MuxEvent.runMux vfile afile exit_code,
                     MuxEvent.removeFile vfile, MuxEvent.removeFile afile] } := by
  have hvlen : 1 ≤ (sortFiles video_files).length := by
    rw [length_sortFiles]; exact hv
  have halen : 1 < (sortFiles audio_files).length := by
    rw [length_sortFiles]; exact ha
  obtain ⟨vfile, vrest, hveq⟩ : ∃ vfile vrest, sortFiles video_files = vfile :: vrest := by
    cases hsv : sortFiles video_files with
    | nil => rw [hsv] at hvlen; simp at hvlen
    | cons x xs => exact ⟨x, xs, rfl⟩
  obtain ⟨afile, a2, arest, haeq⟩ :
      ∃ afile a2 arest, sortFiles audio_files = afile :: a2 :: arest := by
    cases hsa : sortFiles audio_files with
    | nil => rw [hsa] at halen; simp at halen
    | cons x xs =>
      cases xs with
      | nil => rw [hsa] at halen; simp at halen
      | cons x2 xs2 => exact ⟨x, x2, xs2, rfl⟩
  refine ⟨vfile, afile, vrest, a2, arest, hveq, haeq,
    sortFiles_head_min video_files vfile vrest hveq,
    sortFiles_head_min audio_files afile (a2 :: arest) haeq, ?_⟩
  unfold mux_iter
  rw [hveq, haeq]

/-- Witness for mux_pairs_smallest_and_removes_after on concrete listings
and a failing exit code. -/
theorem mux_pairs_smallest_and_removes_after_witness :
    ∃ vfile afile vrest a2 arest,
      sortFiles ["video_001.mp4".toList, "video_000.mp4".toList] = vfile :: vrest ∧
      sortFiles ["audio_000.aac".toList, "audio_001.aac".toList] = afile :: a2 :: arest ∧
      (∀ y ∈ ["video_001.mp4".toList, "video_000.mp4".toList], lexLe vfile y = true) ∧
      (∀ y ∈ ["audio_000.aac".toList, "audio_001.aac".toList], lexLe afile y = true) ∧
      mux_iter ["video_001.mp4".toList, "video_000.mp4".toList]
          ["audio_000.aac".toList, "audio_001.aac".toList] 1 =
        { video_after := vrest, audio_after := a2 :: arest,
          events := [MuxEvent.runMux vfile afile 1,
                     MuxEvent.removeFile vfile, MuxEvent.removeFile afile] } :=
  mux_pairs_smallest_and_removes_after
    ["video_001.mp4".toList, "video_000.mp4".toList]
    ["audio_000.aac".toList, "audio_001.aac".toList] 1 (by decide) (by decide)

/-- Helper: a successful lookup gives a valid index and entry. -/
theorem recs_get_elem {l : List RecPhase} {i : Nat} {ph : RecPhase}
    (h : l.get? i = some ph) : ∃ hi : i < l.length, l[i] = ph := by
  rw [List.get?_eq_getElem?] at h
  exact List.getElem?_eq_some.mp h

/-- Helper: one guard-atomic scheduler step preserves the mutual-exclusion
invariant. -/
theorem recInv_step (raw_sensitivity : Int) (clip_duration : ℚ) (s : SysState)
    (st : SchedStep) (hinv : RecInv s)
    (hsafe : guard_check_safe s st = true) :
    RecInv (sys_step raw_sensitivity clip_duration s st) := by
  obtain ⟨hcount, hflag⟩ := hinv
  cases st with
  | poll mse now =>
    show RecInv (loop_iter raw_sensitivity clip_duration mse now s)
    unfold loop_iter
    by_cases hrec : s.is_recording = true
    · rw [if_pos hrec]
      exact ⟨hcount, hflag⟩
    · rw [if_neg hrec]
      by_cases hprev : s.prev_set = true
      · rw [if_pos hprev]
        set o := motion_poll raw_sensitivity clip_duration
          s.motion_detected_time mse now with ho
        cases htr : o.2 with
        | false =>
          refine ⟨?_, ?_⟩
          · simpa [activeCount, htr] using hcount
          · intro ph hmem hph
            simp only [htr, if_neg] at hmem
            simp only [Bool.false_eq_true, if_false] at hmem
            exact hflag ph hmem hph
        | true =>
          refine ⟨?_, ?_⟩
          · simp only [activeCount, htr, if_true]
            rw [List.countP_append]
            simpa [List.countP_cons, isActive] using hcount
          · intro ph hmem hph
            simp only [htr, if_true] at hmem
            rcases List.mem_append.mp hmem with hmem2 | hmem2
            · exact hflag ph hmem2 hph
            · rw [List.mem_singleton] at hmem2
              subst hmem2
              cases hph
      · rw [if_neg hprev]
        exact ⟨hcount, hflag⟩
  | thread i =>
    show RecInv (thread_step s i)
    unfold thread_step
    cases hget : s.recs.get? i with
    | none => exact ⟨hcount, hflag⟩
    | some ph =>
      obtain ⟨hi, helem⟩ := recs_get_elem hget
      cases ph with
      | atGuard =>
        by_cases hrec : s.is_recording = true
        · rw [if_pos hrec]
          refine ⟨?_, ?_⟩
          · show (s.recs.set i RecPhase.finished).countP isActive ≤ 1
            rw [List.countP_set _ _ _ _ hi, helem]
            simpa [isActive] using hcount
          · intro ph2 hmem hph2
            rcases List.mem_or_eq_of_mem_set hmem with hmem2 | rfl
            · exact hflag ph2 hmem2 hph2
            · cases hph2
        · rw [if_neg hrec]
          have hnoguard : ∀ ph2 ∈ s.recs, ph2 ≠ RecPhase.passedGuard := by
            intro ph2 hmem
            simp only [guard_check_safe, hget] at hsafe
            have := List.all_eq_true.mp hsafe ph2 hmem
            simpa using this
          have hzero : s.recs.countP isActive = 0 := by
            rw [List.countP_eq_zero]
            intro ph2 hmem
            cases ph2 with
            | atGuard => simp [isActive]
            | passedGuard =>
              exact absurd rfl (hnoguard RecPhase.passedGuard hmem)
            | recording =>
              exact absurd (hflag RecPhase.recording hmem rfl) hrec
            | finished => simp [isActive]
          refine ⟨?_, ?_⟩
          · show (s.recs.set i RecPhase.passedGuard).countP isActive ≤ 1
            rw [List.countP_set _ _ _ _ hi, helem, hzero]
            simp [isActive]
          · intro ph2 hmem hph2
            rcases List.mem_or_eq_of_mem_set hmem with hmem2 | rfl
            · exact absurd (hflag ph2 hmem2 hph2) hrec
            · cases hph2
      | passedGuard =>
        refine ⟨?_, ?_⟩
        · show (s.recs.set i RecPhase.recording).countP isActive ≤ 1
          have hcount2 : s.recs.countP isActive ≤ 1 := hcount
          have hone : 1 ≤ s.recs.countP isActive := by
            rw [Nat.succ_le_iff, List.countP_pos]
            refine ⟨s.recs[i], List.getElem_mem hi, ?_⟩
            rw [helem]
            rfl
          rw [List.countP_set _ _ _ _ hi, helem]
          have e1 : isActive RecPhase.passedGuard = true := rfl
          have e2 : isActive RecPhase.recording = true := rfl
          rw [e1, e2]
          simp only [if_pos]
          omega
        · intro ph2 hmem hph2
          rfl
      | recording =>
        have hone : 1 ≤ s.recs.countP isActive := by
          rw [Nat.succ_le_iff, List.countP_pos]
          refine ⟨s.recs[i], List.getElem_mem hi, ?_⟩
          rw [helem]
          rfl
        have heq1 : s.recs.countP isActive = 1 := le_antisymm hcount hone
        have hnew : (s.recs.set i RecPhase.finished).countP isActive = 0 := by
          rw [List.countP_set _ _ _ _ hi, helem, heq1]
          simp [isActive]
        refine ⟨?_, ?_⟩
        · show (s.recs.set i RecPhase.finished).countP isActive ≤ 1
          rw [hnew]
          exact Nat.zero_le 1
        · intro ph2 hmem hph2
          have := List.countP_eq_zero.mp hnew ph2 hmem
          subst hph2
          simp [isActive] at this
      | finished => exact ⟨hcount, hflag⟩

/-- Helper: a guard-atomic schedule preserves the mutual-exclusion
invariant along the whole run. -/
theorem recInv_run (raw_sensitivity : Int) (clip_duration : ℚ) (s : SysState)
    (sched : List SchedStep) (hinv : RecInv s)
    (hsafe : sched_safe raw_sensitivity clip_duration s sched = true) :
    RecInv (sys_run raw_sensitivity clip_duration s sched) := by
  induction sched generalizing s with
  | nil => exact hinv
  | cons st rest ih =>
    simp only [sched_safe, Bool.and_eq_true] at hsafe
    show RecInv (sys_run raw_sensitivity clip_duration
      (sys_step raw_sensitivity clip_duration s st) rest)
    exact ih _ (recInv_step raw_sensitivity clip_duration s st hinv hsafe.1) hsafe.2

/-- C2 amended: under every schedule in which no record_clip guard check
runs while another invocation sits between its own check and its flag
write, at most one record_clip invocation is active at any time; and a
record_clip invocation whose guard check reads is_recording = True returns
immediately, changing nothing but its own phase (the trigger is dropped,
not queued). -/
theorem at_most_one_active_recording (raw_sensitivity : Int)
    (clip_duration : ℚ) (sched : List SchedStep) (s : SysState) (i : Nat)
    (hsafe : sched_safe raw_sensitivity clip_duration initState sched = true)
    (hrec : s.is_recording = true)
    (hph : s.recs.get? i = some RecPhase.atGuard) :
    activeCount (sys_run raw_sensitivity clip_duration initState sched) ≤ 1 ∧
    thread_step s i = { s with recs := s.recs.set i RecPhase.finished } := by
  constructor
  · have hinv0 : RecInv initState := by
      refine ⟨Nat.le_of_lt Nat.one_pos, ?_⟩
      intro ph hmem
      simp [initState] at hmem
    exact (recInv_run raw_sensitivity clip_duration initState sched hinv0 hsafe).1
  · unfold thread_step
    rw [hph, if_pos hrec]

/-- C2 counterexample: a concrete interleaving (threshold 25, duration 10)
in which a first spawned record_clip thread stays unscheduled while the
motion loop clears the timestamp and spawns a second thread; both guard
checks then read is_recording = False before either flag write, leaving two
invocations active at once - the claim quantified over every interleaving is
false on the code, whose guard is a non-atomic check-then-set. -/
theorem guard_race_two_recordings :
    activeCount (sys_run 25 10 initState
      [SchedStep.poll 40 0, SchedStep.poll 40 0, SchedStep.poll 0 20,
       SchedStep.poll 40 20, SchedStep.thread 0, SchedStep.thread 1,
       SchedStep.thread 0, SchedStep.thread 1]) = 2 := by
  norm_num [sys_run, sys_step, loop_iter, thread_step, motion_poll, initState,
    activeCount, isActive, List.countP, List.countP.go]

/-- Witness for at_most_one_active_recording on a concrete guard-atomic
schedule and a concrete state holding one recording and one pending
trigger. -/
theorem at_most_one_active_recording_witness :
    activeCount (sys_run 25 10 initState
      [SchedStep.poll 40 0, SchedStep.poll 40 0, SchedStep.thread 0,
       SchedStep.thread 0, SchedStep.thread 0]) ≤ 1 ∧
    thread_step
        { is_recording := true, motion_detected_time := none, prev_set := true,
          recs := [RecPhase.recording, RecPhase.atGuard] } 1 =
      { is_recording := true, motion_detected_time := none, prev_set := true,
        recs := [RecPhase.recording, RecPhase.atGuard].set 1 RecPhase.finished } :=
  at_most_one_active_recording 25 10
    [SchedStep.poll 40 0, SchedStep.poll 40 0, SchedStep.thread 0,
     SchedStep.thread 0, SchedStep.thread 0]
    { is_recording := true, motion_detected_time := none, prev_set := true,
      recs := [RecPhase.recording, RecPhase.atGuard] } 1
    (by decide) rfl rfl
